import Mathlib

/-!
Shallow embedding of the Blitz WinRT bridge
(`src/apps/BlitzWinRTTestApp/Blitz`): the swap-chain attacher
(`Attacher.cpp`), the input-normalizing panel event handlers and the
render-loop / template lifecycle (`BlitzView.cpp`), and the asynchronous
network fetcher (`NetworkFetcher.cpp`).  Stateful C++ methods become
explicit state-passing functions that also return a trace of the
externally visible effects (diagnostic logs, panel capability queries,
SetSwapChain calls, host calls, event subscriptions).
-/

namespace Blitz

/-! ## Attacher (Attacher.h / Attacher.cpp) -/

/-- The reserved test sentinel from `Attacher::AttachSwapChain`
(`0xFEEDFACECAFEBEEFULL`). -/
def TEST_SENTINEL : Nat := 0xFEEDFACECAFEBEEF

/-- Attacher state: `m_panel` (captured SwapChainPanel, `none` when the
panel was absent or not a SwapChainPanel) and `m_lastSwapchainPtr`
(initialized to 0 in `Attacher.h`).  Panels are identified by an opaque
`Nat`. -/
structure AttacherState where
  m_panel : Option Nat
  m_lastSwapchainPtr : Nat
deriving Repr, DecidableEq

/-- Externally visible effects of `Attacher::AttachSwapChain`: a debug
log line, the `QueryInterface` for `ISwapChainPanelNative` on the panel,
and the `SetSwapChain` call forwarding the handle to the panel. -/
inductive AttachEffect where
  | log (msg : String)
  | queryInterface (panel : Nat)
  | setSwapChain (panel : Nat) (ptr : Nat)
deriving Repr, DecidableEq

/-- Platform responses the attach path branches on: whether the
`QueryInterface` for `ISwapChainPanelNative` succeeds and whether the
`SetSwapChain` HRESULT is a failure. -/
structure AttachEnv where
  qiSucceeds : Bool
  setSwapChainFails : Bool
deriving Repr, DecidableEq

/-- Method `Attacher::AttachSwapChain` (Attacher.cpp lines 32-81): stores the
handle into `m_lastSwapchainPtr` first, then early-returns on the null
handle, the test sentinel, and a missing panel; otherwise queries the
panel for `ISwapChainPanelNative` and, on success, calls `SetSwapChain`.
Returns the successor state and the effect trace. -/
def AttachSwapChain (env : AttachEnv) (s : AttacherState) (swapchainPtr : Nat) :
    AttacherState × List AttachEffect :=
  let s1 : AttacherState := { s with m_lastSwapchainPtr := swapchainPtr }
  if swapchainPtr = 0 then
    (s1, [.log "Attacher::AttachSwapChain: null pointer, ignoring"])
  else if swapchainPtr = TEST_SENTINEL then
    (s1, [.log "Attacher::AttachSwapChain: test pointer, ignoring"])
  else
    match s1.m_panel with
    | none => (s1, [.log "Attacher::AttachSwapChain: panel not set"])
    | some p =>
      if env.qiSucceeds then
        if env.setSwapChainFails then
          (s1, [.queryInterface p, .setSwapChain p swapchainPtr,
                .log "Attacher::AttachSwapChain: SetSwapChain failed"])
        else
          (s1, [.queryInterface p, .setSwapChain p swapchainPtr,
                .log "Attacher::AttachSwapChain: success"])
      else
        (s1, [.queryInterface p,
              .log "Attacher::AttachSwapChain: QI for ISwapChainPanelNative failed"])

/-- Method `Attacher::TestAttacherConnection` (Attacher.cpp lines 83-86). -/
def TestAttacherConnection (_s : AttacherState) : Bool := true

/-- An effect is an attach forwarding step (capability query or
`SetSwapChain`), as opposed to a pure diagnostic log. -/
def AttachEffect.touchesPanel : AttachEffect → Bool
  | .log _ => false
  | .queryInterface _ => true
  | .setSwapChain _ _ => true

/-! ## Input normalization (BlitzView.cpp pointer/wheel handlers) -/

/-- Pointer-point button properties read via
`pt.Properties().Is*ButtonPressed()`. -/
structure PointerProps where
  isLeftButtonPressed : Bool
  isRightButtonPressed : Bool
  isMiddleButtonPressed : Bool
  isXButton1Pressed : Bool
  isXButton2Pressed : Bool
deriving Repr, DecidableEq

/-- The physical mouse button whose state change raised a Down/Up
pointer event (carried by the native event; the handlers in
`BlitzView.cpp` do not read it). -/
inductive MouseButton where
  | left | middle | right | x1 | x2
deriving Repr, DecidableEq

/-- The spec encoding for `pressedButton` on Down/Up events:
0 = left, 1 = middle, 2 = right. -/
def encodeButton : MouseButton → Nat
  | .left => 0
  | .middle => 1
  | .right => 2
  | .x1 => 3
  | .x2 => 4

/-- A native pointer event as seen by the panel handlers: current
button properties, the triggering button, the position and the key
modifier mask. -/
structure PointerEvent where
  props : PointerProps
  triggeringButton : MouseButton
  positionX : ℚ
  positionY : ℚ
  keyModifiers : Nat
deriving Repr, DecidableEq

/-- Button-mask construction shared by `PanelPointerMoved`
(BlitzView.cpp lines 127-132) and `PanelPointerPressed` (lines 143-148):
sequential `buttons |= bit` guarded by each independent pressed-state
test. -/
def buttonMaskOf (p : PointerProps) : Nat :=
  let buttons : Nat := 0
  let buttons := if p.isLeftButtonPressed then buttons ||| 1 else buttons
  let buttons := if p.isRightButtonPressed then buttons ||| 2 else buttons
  let buttons := if p.isMiddleButtonPressed then buttons ||| 4 else buttons
  let buttons := if p.isXButton1Pressed then buttons ||| 8 else buttons
  let buttons := if p.isXButton2Pressed then buttons ||| 16 else buttons
  buttons

/-- Calls forwarded into the host (`m_host.…` in the handlers). -/
inductive HostCall where
  | pointerMove (x y : ℚ) (buttons modifiers : Nat)
  | pointerDown (x y : ℚ) (button buttons modifiers : Nat)
  | pointerUp (x y : ℚ) (button buttons modifiers : Nat)
  | wheelScroll (dx dy : ℚ)
  | renderOnce
  | resize (width height : Nat) (scale : ℚ)
deriving Repr, DecidableEq

/-- Handler `BlitzView::PanelPointerMoved` (BlitzView.cpp lines 122-134), after
the `m_host`/`m_panel` guard: the forwarded `PointerMove` call. -/
def PanelPointerMoved (e : PointerEvent) : HostCall :=
  .pointerMove e.positionX e.positionY (buttonMaskOf e.props) e.keyModifiers

/-- The `button` value computed by `BlitzView::PanelPointerPressed`
(BlitzView.cpp lines 140-142): 0 by default, 2 if the right button is
currently pressed, else 1 if the middle button is currently pressed. -/
def pressedDownButton (p : PointerProps) : Nat :=
  if p.isRightButtonPressed then 2
  else if p.isMiddleButtonPressed then 1
  else 0

/-- Handler `BlitzView::PanelPointerPressed` (BlitzView.cpp lines 136-151),
after the guard: the forwarded `PointerDown` call. -/
def PanelPointerPressed (e : PointerEvent) : HostCall :=
  .pointerDown e.positionX e.positionY (pressedDownButton e.props)
    (buttonMaskOf e.props) e.keyModifiers

/-- Handler `BlitzView::PanelPointerReleased` (BlitzView.cpp lines 153-160),
after the guard: `button` is the constant 0 ("heuristic: left release
maps to 0") and the forwarded mask argument is the constant 0. -/
def PanelPointerReleased (e : PointerEvent) : HostCall :=
  .pointerUp e.positionX e.positionY 0 0 e.keyModifiers

/-- Handler `BlitzView::PanelPointerWheelChanged` (BlitzView.cpp lines 162-177),
after the guard: `dy := raw / 120.0 * linesPerNotch * pixelsPerLine` with
`linesPerNotch = 1`, `pixelsPerLine = 48`, `dx := 0`; if the Shift
modifier is active, `dx := dy; dy := 0`.  Real arithmetic is modelled
over ℚ. -/
def PanelPointerWheelChanged (raw : ℤ) (shiftActive : Bool) : HostCall :=
  let linesPerNotch : ℚ := 1
  let pixelsPerLine : ℚ := 48
  let dy : ℚ := (raw : ℚ) / 120 * linesPerNotch * pixelsPerLine
  let dx : ℚ := 0
  if shiftActive then .wheelScroll dy 0 else .wheelScroll dx dy

/-! ## Size clamping (BlitzView.cpp InitializeHostIfReady / ForwardResize) -/

/-- Panel-reported layout size (`ActualWidth`/`ActualHeight` doubles,
always non-negative; modelled over ℚ). -/
structure PanelSize where
  actualWidth : ℚ
  actualHeight : ℚ
deriving Repr, DecidableEq

/-- The `static_cast<uint32_t>` of a non-negative double followed by
`std::max<uint32_t>(1, ·)`, as in BlitzView.cpp lines 54-55 and
116-117. -/
def clampDim (reported : ℚ) : Nat := max 1 (Int.toNat ⌊reported⌋)

/-- The (width, height) computed by `BlitzView::InitializeHostIfReady`
(BlitzView.cpp lines 54-55) and passed to host construction. -/
def hostConstructSize (p : PanelSize) : Nat × Nat :=
  (clampDim p.actualWidth, clampDim p.actualHeight)

/-- The forwarded call of `BlitzView::ForwardResize` (BlitzView.cpp
lines 107-120), after the `m_host`/`m_panel` guard. -/
def ForwardResize (p : PanelSize) (scale : ℚ) : HostCall :=
  .resize (clampDim p.actualWidth) (clampDim p.actualHeight) scale

/-! ## Render loop (BlitzView.cpp EnsureRenderLoop / StopRenderLoop)

The bridge-side state is the `m_renderLoopAttached` flag and the stored
`m_renderingToken`; the frame clock (`CompositionTarget::Rendering`) is
modelled by the list of currently active subscription tokens, with a
fresh-token counter.  `event_token` is a plain value; the code never
clears `m_renderingToken` after unsubscribing. -/

structure RenderLoopState where
  m_renderLoopAttached : Bool
  m_renderingToken : Nat
  activeSubs : List Nat
  nextToken : Nat
deriving Repr, DecidableEq

/-- Initial bridge state (`m_renderLoopAttached{ false }`,
`m_renderingToken{}`): no subscription on the frame clock. -/
def initRenderLoop : RenderLoopState :=
  { m_renderLoopAttached := false, m_renderingToken := 0,
    activeSubs := [], nextToken := 1 }

/-- Method `BlitzView::EnsureRenderLoop` (BlitzView.cpp lines 72-78): no-op
when `m_renderLoopAttached`; otherwise subscribe `OnRendering` to
`CompositionTarget::Rendering`, store the returned token, and set the
flag. -/
def EnsureRenderLoop (s : RenderLoopState) : RenderLoopState :=
  if s.m_renderLoopAttached then s
  else
    { m_renderLoopAttached := true, m_renderingToken := s.nextToken,
      activeSubs := s.nextToken :: s.activeSubs, nextToken := s.nextToken + 1 }

/-- Method `BlitzView::StopRenderLoop` (BlitzView.cpp lines 80-86): no-op when
not attached; otherwise revoke the stored token from
`CompositionTarget::Rendering` and clear the flag (the token field
itself is left as is). -/
def StopRenderLoop (s : RenderLoopState) : RenderLoopState :=
  if !s.m_renderLoopAttached then s
  else
    { s with m_renderLoopAttached := false,
             activeSubs := s.activeSubs.erase s.m_renderingToken }

/-- A start/stop call on the render loop. -/
inductive LoopOp where
  | start | stop
deriving Repr, DecidableEq

/-- Run a sequence of `EnsureRenderLoop`/`StopRenderLoop` calls. -/
def runLoopOps (s : RenderLoopState) : List LoopOp → RenderLoopState
  | [] => s
  | .start :: rest => runLoopOps (EnsureRenderLoop s) rest
  | .stop :: rest => runLoopOps (StopRenderLoop s) rest

/-- The render-loop invariant: when attached, the frame clock holds
exactly the stored token; when detached, it holds no subscription from
this bridge. -/
def LoopInv (s : RenderLoopState) : Prop :=
  (s.m_renderLoopAttached = true → s.activeSubs = [s.m_renderingToken]) ∧
  (s.m_renderLoopAttached = false → s.activeSubs = [])

/-! ## Template application (BlitzView.cpp OnApplyTemplate)

State: the panel reference, the six stored `event_token` fields (value 0
means "no token", matching the `token.value != 0` guard used by the
`clear` lambda), the UI side's set of active subscriptions, and a fresh
token counter.  `OnApplyTemplate` is parametrized by the result of the
template-part lookup performed inside `InitializeHostIfReady` (the
panel found, or `none`). -/

/-- The six panel events wired in `OnApplyTemplate`. -/
inductive PanelEvent where
  | loaded | sizeChanged | pointerMoved | pointerPressed
  | pointerReleased | pointerWheelChanged
deriving Repr, DecidableEq

/-- A subscription action on a panel event, as it happens on the UI
side: removal of a handler by token, or addition returning a token. -/
inductive SubAction where
  | unsubscribe (panel : Nat) (ev : PanelEvent) (token : Nat)
  | subscribe (panel : Nat) (ev : PanelEvent) (token : Nat)
deriving Repr, DecidableEq

/-- Bridge state relevant to `OnApplyTemplate`: `m_panel`, the six
token fields, the set of live subscriptions (panel, event, token)
registered on the UI side, and the token source. -/
structure ViewSubState where
  m_panel : Option Nat
  m_loadedToken : Nat
  m_sizeChangedToken : Nat
  m_pointerMovedToken : Nat
  m_pointerPressedToken : Nat
  m_pointerReleasedToken : Nat
  m_pointerWheelChangedToken : Nat
  uiSubs : List (Nat × PanelEvent × Nat)
  nextToken : Nat
deriving Repr, DecidableEq

/-- Initial bridge state: no panel, all token fields default (value 0),
no UI subscriptions. -/
def initViewSub : ViewSubState :=
  { m_panel := none, m_loadedToken := 0, m_sizeChangedToken := 0,
    m_pointerMovedToken := 0, m_pointerPressedToken := 0,
    m_pointerReleasedToken := 0, m_pointerWheelChangedToken := 0,
    uiSubs := [], nextToken := 1 }

/-- The `clear` lambda of `OnApplyTemplate` (BlitzView.cpp lines
188-191) applied to one token field: when the token value is nonzero,
remove the handler and zero the field; otherwise do nothing.  Returns
the new token field value, the new UI subscription list, and the
actions taken. -/
def clearToken (p : Nat) (ev : PanelEvent) (tok : Nat)
    (subs : List (Nat × PanelEvent × Nat)) :
    Nat × List (Nat × PanelEvent × Nat) × List SubAction :=
  if tok ≠ 0 then (0, subs.erase (p, ev, tok), [.unsubscribe p ev tok])
  else (tok, subs, [])

/-- Method `BlitzView::OnApplyTemplate` (BlitzView.cpp lines 180-211):
if a panel is held, clear all six tokens (removing each nonzero one
from the UI side); drop the panel reference; rebind via the template
part lookup (`lookup`, the panel `InitializeHostIfReady` finds, if
any); if a panel was found, subscribe all six handlers and store the
returned tokens.  Returns the successor state and the action trace in
order. -/
def OnApplyTemplate (s : ViewSubState) (lookup : Option Nat) :
    ViewSubState × List SubAction :=
  let (s1, trace1) :=
    match s.m_panel with
    | none => (s, [])
    | some p =>
      let (t1, u1, a1) := clearToken p .loaded s.m_loadedToken s.uiSubs
      let (t2, u2, a2) := clearToken p .sizeChanged s.m_sizeChangedToken u1
      let (t3, u3, a3) := clearToken p .pointerMoved s.m_pointerMovedToken u2
      let (t4, u4, a4) := clearToken p .pointerPressed s.m_pointerPressedToken u3
      let (t5, u5, a5) := clearToken p .pointerReleased s.m_pointerReleasedToken u4
      let (t6, u6, a6) := clearToken p .pointerWheelChanged s.m_pointerWheelChangedToken u5
      ({ s with m_loadedToken := t1, m_sizeChangedToken := t2,
                m_pointerMovedToken := t3, m_pointerPressedToken := t4,
                m_pointerReleasedToken := t5, m_pointerWheelChangedToken := t6,
                uiSubs := u6 },
       a1 ++ a2 ++ a3 ++ a4 ++ a5 ++ a6)
  let s2 := { s1 with m_panel := lookup }
  match lookup with
  | none => (s2, trace1)
  | some p =>
    let n := s2.nextToken
    (({ s2 with m_loadedToken := n, m_sizeChangedToken := n + 1,
                m_pointerMovedToken := n + 2, m_pointerPressedToken := n + 3,
                m_pointerReleasedToken := n + 4, m_pointerWheelChangedToken := n + 5,
                uiSubs := (p, .loaded, n) :: (p, .sizeChanged, n + 1) ::
                  (p, .pointerMoved, n + 2) :: (p, .pointerPressed, n + 3) ::
                  (p, .pointerReleased, n + 4) :: (p, .pointerWheelChanged, n + 5) ::
                  s2.uiSubs,
                nextToken := n + 6 }),
     trace1 ++ [.subscribe p .loaded n, .subscribe p .sizeChanged (n + 1),
                .subscribe p .pointerMoved (n + 2), .subscribe p .pointerPressed (n + 3),
                .subscribe p .pointerReleased (n + 4),
                .subscribe p .pointerWheelChanged (n + 5)])

/-- Run a sequence of template applications (each with its lookup
result). -/
def runApplies (s : ViewSubState) : List (Option Nat) → ViewSubState
  | [] => s
  | l :: rest => runApplies (OnApplyTemplate s l).1 rest

/-- Number of live UI subscriptions for one event kind. -/
def countEv (subs : List (Nat × PanelEvent × Nat)) (ev : PanelEvent) : Nat :=
  (subs.filter (fun x => x.2.1 = ev)).length

/-- An action is an unsubscription. -/
def SubAction.isUnsub : SubAction → Bool
  | .unsubscribe _ _ _ => true
  | .subscribe _ _ _ => false

/-- In a trace, every unsubscription precedes every subscription: once
a subscription appears, no unsubscription follows. -/
def unsubsFirst : List SubAction → Bool
  | [] => true
  | .unsubscribe _ _ _ :: rest => unsubsFirst rest
  | .subscribe _ _ _ :: rest => rest.all (fun a => !a.isUnsub)

/-- The canonical UI subscription list held while the bridge is wired
to panel `p`: one live handler per event, carrying the stored
tokens. -/
def canonSubs (p : Nat) (s : ViewSubState) : List (Nat × PanelEvent × Nat) :=
  [(p, .loaded, s.m_loadedToken), (p, .sizeChanged, s.m_sizeChangedToken),
   (p, .pointerMoved, s.m_pointerMovedToken),
   (p, .pointerPressed, s.m_pointerPressedToken),
   (p, .pointerReleased, s.m_pointerReleasedToken),
   (p, .pointerWheelChanged, s.m_pointerWheelChangedToken)]

/-- The subscription invariant of the bridge: with no panel, no token
is stored and no subscription is live; with a panel, all six tokens
are nonzero and the live subscriptions are exactly the six canonical
ones on that panel.  The token source stays positive so fresh tokens
are never 0. -/
def ViewInv (s : ViewSubState) : Prop :=
  1 ≤ s.nextToken ∧
  match s.m_panel with
  | none => s.uiSubs = [] ∧ s.m_loadedToken = 0 ∧ s.m_sizeChangedToken = 0 ∧
      s.m_pointerMovedToken = 0 ∧ s.m_pointerPressedToken = 0 ∧
      s.m_pointerReleasedToken = 0 ∧ s.m_pointerWheelChangedToken = 0
  | some p => s.m_loadedToken ≠ 0 ∧ s.m_sizeChangedToken ≠ 0 ∧
      s.m_pointerMovedToken ≠ 0 ∧ s.m_pointerPressedToken ≠ 0 ∧
      s.m_pointerReleasedToken ≠ 0 ∧ s.m_pointerWheelChangedToken ≠ 0 ∧
      s.uiSubs = canonSubs p s

/-! ## Network fetcher (NetworkFetcher.cpp)

`NetworkFetcher::DoFetch` is a coroutine whose suspension points and
failure points are the `Uri` constructor, `GetAsync`,
`EnsureSuccessStatusCode` and `ReadAsBufferAsync`/`ReadBytes`; every
raised fault is an `hresult_error` caught by the handler.  The
environment records how each platform step would resolve; the function
returns the list of `CompleteFetch` deliveries made into the host. -/

/-- Outcomes of the platform steps inside `DoFetch`: whether the `Uri`
constructor throws, whether `GetAsync` completes with a response
(status code and body) or throws a transport error, and whether
reading the response body throws. -/
structure FetchEnv where
  uriError : Option String
  getResult : Except String (Nat × List Nat)
  readBodyError : Option String
deriving Repr

/-- An HTTP status code counted as success by
`EnsureSuccessStatusCode` (2xx). -/
def httpSuccess (code : Nat) : Bool := 200 ≤ code && code < 300

/-- The `FetchResult` delivered via `Host::CompleteFetch`. -/
structure FetchResult where
  requestId : Nat
  docId : Nat
  success : Bool
  bytes : List Nat
  errorMessage : String
deriving Repr, DecidableEq

/-- The try-block of `DoFetch` (NetworkFetcher.cpp lines 43-56) up to
the point where the body bytes are in hand: construct the `Uri`, await
`GetAsync`, check `EnsureSuccessStatusCode`, read the body.  Any raised
`hresult_error` becomes the `Except.error` message the catch block
sees. -/
def fetchSteps (env : FetchEnv) : Except String (List Nat) :=
  match env.uriError with
  | some m => .error m
  | none =>
    match env.getResult with
    | .error m => .error m
    | .ok (code, body) =>
      if httpSuccess code then
        match env.readBodyError with
        | some m => .error m
        | none => .ok body
      else .error ("HTTP status " ++ toString code ++ " is not a success status")

/-- Coroutine `NetworkFetcher::DoFetch` (NetworkFetcher.cpp lines 39-69): on the
success path deliver `CompleteFetch(requestId, docId, true, bytes, "")`
when `m_host` is live; in the catch block deliver
`CompleteFetch(requestId, docId, false, {}, e.message())` when `m_host`
is live.  Returns the list of deliveries made. -/
def DoFetch (env : FetchEnv) (hostLive : Bool) (requestId docId : Nat) :
    List FetchResult :=
  match fetchSteps env with
  | .ok body =>
    if hostLive then [⟨requestId, docId, true, body, ""⟩] else []
  | .error m =>
    if hostLive then [⟨requestId, docId, false, [], m⟩] else []

/-- Method `NetworkFetcher::Fetch` (NetworkFetcher.cpp lines 33-37): forwards
to `DoFetch` with method coerced to GET; the `method` argument is
discarded. -/
def Fetch (env : FetchEnv) (hostLive : Bool) (requestId docId : Nat)
    (_method : String) : List FetchResult :=
  DoFetch env hostLive requestId docId

/-! ## Theorems -/

/-- The successor state of `AttachSwapChain` is always the input state
with `m_lastSwapchainPtr` overwritten, on every branch. -/
theorem AttachSwapChain_state (env : AttachEnv) (s : AttacherState) (ptr : Nat) :
    (AttachSwapChain env s ptr).1 = { s with m_lastSwapchainPtr := ptr } := by
  obtain ⟨pan, last⟩ := s
  unfold AttachSwapChain
  cases pan <;> repeat' split
  all_goals rfl

/-- C1: for every call to `Attacher::AttachSwapChain` with
`surfaceHandle` equal to 0 or to the reserved sentinel
0xFEEDFACECAFEBEEF, no attach is forwarded to the panel: the effect
trace contains no capability query (`QueryInterface`) and no
`SetSwapChain` call. -/
theorem C1_ignored_handles_not_forwarded (env : AttachEnv) (s : AttacherState)
    (ptr : Nat) (h : ptr = 0 ∨ ptr = TEST_SENTINEL) :
    ∀ e ∈ (AttachSwapChain env s ptr).2, e.touchesPanel = false := by
  rcases h with h | h <;> subst h <;>
    simp [AttachSwapChain, TEST_SENTINEL, AttachEffect.touchesPanel]

/-- Witness for C1: the sentinel handle, with a panel set and a
succeeding capability query available, still forwards nothing. -/
theorem C1_witness :
    (TEST_SENTINEL = 0 ∨ TEST_SENTINEL = TEST_SENTINEL) ∧
      (∀ e ∈ (AttachSwapChain ⟨true, false⟩ ⟨some 1, 0⟩ TEST_SENTINEL).2,
        e.touchesPanel = false) :=
  ⟨Or.inr rfl,
    C1_ignored_handles_not_forwarded ⟨true, false⟩ ⟨some 1, 0⟩ TEST_SENTINEL (Or.inr rfl)⟩

/-- C10: every call to `Attacher::AttachSwapChain`, the ignored cases
included, overwrites `m_lastSwapchainPtr` with the given handle; the
panel reference is never mutated, so this field is the only attacher
state an ignored call touches; and when the handle differs from the
stored value the call is not a pure no-op on the attacher state. -/
theorem C10_attach_always_stores_last_ptr (env : AttachEnv) (s : AttacherState)
    (ptr : Nat) :
    (AttachSwapChain env s ptr).1.m_lastSwapchainPtr = ptr ∧
    (AttachSwapChain env s ptr).1.m_panel = s.m_panel ∧
    (ptr ≠ s.m_lastSwapchainPtr → (AttachSwapChain env s ptr).1 ≠ s) := by
  have h := AttachSwapChain_state env s ptr
  refine ⟨by rw [h], by rw [h], ?_⟩
  intro hne heq
  apply hne
  calc ptr = (AttachSwapChain env s ptr).1.m_lastSwapchainPtr := by rw [h]
    _ = s.m_lastSwapchainPtr := by rw [heq]

/-- Witness for C10: an ignored sentinel attach on a panel-less
attacher with stored pointer 0 still stores the sentinel and changes
the state. -/
theorem C10_witness :
    (AttachSwapChain ⟨false, false⟩ ⟨none, 0⟩ TEST_SENTINEL).1.m_lastSwapchainPtr
        = TEST_SENTINEL ∧
    (AttachSwapChain ⟨false, false⟩ ⟨none, 0⟩ TEST_SENTINEL).1 ≠ ⟨none, 0⟩ :=
  ⟨(C10_attach_always_stores_last_ptr ⟨false, false⟩ ⟨none, 0⟩ TEST_SENTINEL).1,
    (C10_attach_always_stores_last_ptr ⟨false, false⟩ ⟨none, 0⟩ TEST_SENTINEL).2.2
      (by decide)⟩

/-- C2: for every wheel event with raw delta `d`, without Shift the
forwarded scroll is vertical `(d / 120) * 1 * 48` and horizontal 0;
with Shift the same magnitude goes to the horizontal axis and vertical
is 0; in particular `d = 120` gives `(0, 48)` without Shift and
`(48, 0)` with Shift. -/
theorem C2_wheel_normalization (d : ℤ) :
    PanelPointerWheelChanged d false = .wheelScroll 0 ((d : ℚ) / 120 * 1 * 48) ∧
    PanelPointerWheelChanged d true = .wheelScroll ((d : ℚ) / 120 * 1 * 48) 0 ∧
    PanelPointerWheelChanged 120 false = .wheelScroll 0 48 ∧
    PanelPointerWheelChanged 120 true = .wheelScroll 48 0 := by
  refine ⟨rfl, rfl, ?_, ?_⟩ <;>
    · simp only [PanelPointerWheelChanged, if_true, if_false, Bool.false_eq_true,
        ite_false, ite_true]
      norm_num

/-- C5: the width and height passed to host construction
(`InitializeHostIfReady`) and to `Resize` (`ForwardResize`) are each at
least 1, for every panel-reported size including 0. -/
theorem C5_sizes_clamped_to_one (p : PanelSize) (scale : ℚ) :
    1 ≤ (hostConstructSize p).1 ∧ 1 ≤ (hostConstructSize p).2 ∧
    ForwardResize p scale =
      .resize (clampDim p.actualWidth) (clampDim p.actualHeight) scale ∧
    1 ≤ clampDim p.actualWidth ∧ 1 ≤ clampDim p.actualHeight :=
  ⟨le_max_left _ _, le_max_left _ _, rfl, le_max_left _ _, le_max_left _ _⟩

/-- The sequential `|=` construction of the button mask equals the sum
of the per-button bit contributions. -/
theorem buttonMaskOf_additive (a b c d f : Bool) :
    buttonMaskOf ⟨a, b, c, d, f⟩ =
      (if a then 1 else 0) + (if b then 2 else 0) + (if c then 4 else 0) +
      (if d then 8 else 0) + (if f then 16 else 0) := by
  cases a <;> cases b <;> cases c <;> cases d <;> cases f <;> decide

/-- C6: the forwarded button mask is additive and order-independent:
it is a function of the five pressed-states alone (`PanelPointerMoved`
and `PanelPointerPressed` forward the identical mask independently of
the triggering button), each button contributes exactly its own bit
(bit0=left … bit4=extra2), as the sum form shows, and left+right
pressed simultaneously yields mask 3 = 0b00011. -/
theorem C6_button_mask_additive (e e' : PointerEvent) :
    buttonMaskOf e.props =
      (if e.props.isLeftButtonPressed then 1 else 0) +
      (if e.props.isRightButtonPressed then 2 else 0) +
      (if e.props.isMiddleButtonPressed then 4 else 0) +
      (if e.props.isXButton1Pressed then 8 else 0) +
      (if e.props.isXButton2Pressed then 16 else 0) ∧
    PanelPointerMoved e =
      .pointerMove e.positionX e.positionY (buttonMaskOf e.props) e.keyModifiers ∧
    PanelPointerPressed e =
      .pointerDown e.positionX e.positionY (pressedDownButton e.props)
        (buttonMaskOf e.props) e.keyModifiers ∧
    (e.props = e'.props → buttonMaskOf e.props = buttonMaskOf e'.props) ∧
    buttonMaskOf ⟨true, true, false, false, false⟩ = 3 := by
  obtain ⟨⟨a, b, c, d, f⟩, tb, x, y, m⟩ := e
  exact ⟨buttonMaskOf_additive a b c d f, rfl, rfl, fun h => by rw [h], by decide⟩

/-- Witness for C6: two events from different sources (a left-press
event and a right-press event) with the same pressed-state produce the
same mask, 3. -/
theorem C6_witness :
    buttonMaskOf (⟨⟨true, true, false, false, false⟩, .left, 0, 0, 0⟩ :
        PointerEvent).props =
      buttonMaskOf (⟨⟨true, true, false, false, false⟩, .right, 0, 0, 0⟩ :
        PointerEvent).props ∧
    buttonMaskOf ⟨true, true, false, false, false⟩ = 3 := by
  have h := C6_button_mask_additive
    ⟨⟨true, true, false, false, false⟩, .left, 0, 0, 0⟩
    ⟨⟨true, true, false, false, false⟩, .right, 0, 0, 0⟩
  exact ⟨h.2.2.2.1 rfl, h.2.2.2.2⟩

/-- Counterexample to C7, one instance per event kind.  Up: a
pointer-release of the middle button (no button still pressed at
release time) — the claim demands forwarded `pressedButton` = 1
(middle); `PanelPointerReleased` forwards the constant 0.  Down: a
left-button press while the right button is already held — the claim
demands `pressedButton` = 0 (left); `PanelPointerPressed` forwards 2
(right), from the pressed-state priority. -/
theorem C7_counterexample :
    (PanelPointerReleased ⟨⟨false, false, false, false, false⟩, .middle, 0, 0, 0⟩ =
       .pointerUp 0 0 0 0 0 ∧
     encodeButton .middle = 1 ∧
     PanelPointerReleased ⟨⟨false, false, false, false, false⟩, .middle, 0, 0, 0⟩ ≠
       .pointerUp 0 0 (encodeButton .middle) 0 0) ∧
    (PanelPointerPressed ⟨⟨true, true, false, false, false⟩, .left, 0, 0, 0⟩ =
       .pointerDown 0 0 2 3 0 ∧
     encodeButton .left = 0 ∧
     PanelPointerPressed ⟨⟨true, true, false, false, false⟩, .left, 0, 0, 0⟩ ≠
       .pointerDown 0 0 (encodeButton .left) 3 0) := by
  refine ⟨⟨rfl, rfl, fun h => ?_⟩, rfl, rfl, fun h => ?_⟩
  · rw [PanelPointerReleased] at h
    simp [encodeButton] at h
  · rw [PanelPointerPressed] at h
    simp [encodeButton, pressedDownButton, buttonMaskOf] at h

/-- Lemma: the priority-derived `button` value agrees with the spec
encoding of a button exactly when that button is the highest-priority
pressed one. -/
theorem pressedDownButton_encodes (p : PointerProps) (tb : MouseButton) :
    pressedDownButton p = encodeButton tb ↔
      ((tb = .right ∧ p.isRightButtonPressed = true) ∨
       (tb = .middle ∧ p.isRightButtonPressed = false ∧
          p.isMiddleButtonPressed = true) ∨
       (tb = .left ∧ p.isRightButtonPressed = false ∧
          p.isMiddleButtonPressed = false)) := by
  obtain ⟨a, b, c, d, f⟩ := p
  cases tb <;> cases a <;> cases b <;> cases c <;> cases d <;> cases f <;> decide

/-- C7 amended: for every Up event, the forwarded `pressedButton` is
the constant 0, regardless of which button was released.  For every
Down event, the forwarded `pressedButton` is derived from the
currently-pressed buttons by priority (right ⇒ 2, else middle ⇒ 1,
else 0), and it equals the 0=left/1=middle/2=right encoding of the
triggering button if and only if that button is the highest-priority
pressed one. -/
theorem C7_pressed_button_amended (e : PointerEvent) :
    PanelPointerReleased e =
      .pointerUp e.positionX e.positionY 0 0 e.keyModifiers ∧
    PanelPointerPressed e =
      .pointerDown e.positionX e.positionY (pressedDownButton e.props)
        (buttonMaskOf e.props) e.keyModifiers ∧
    (pressedDownButton e.props = encodeButton e.triggeringButton ↔
      ((e.triggeringButton = .right ∧ e.props.isRightButtonPressed = true) ∨
       (e.triggeringButton = .middle ∧ e.props.isRightButtonPressed = false ∧
          e.props.isMiddleButtonPressed = true) ∨
       (e.triggeringButton = .left ∧ e.props.isRightButtonPressed = false ∧
          e.props.isMiddleButtonPressed = false))) :=
  ⟨rfl, rfl, pressedDownButton_encodes e.props e.triggeringButton⟩

/-- Witness for C7 amended: a middle-button press with only the middle
button down forwards `pressedButton` = 1, through the right-to-left
direction of the characterization. -/
theorem C7_amended_witness :
    pressedDownButton
        (⟨⟨false, false, true, false, false⟩, .middle, 0, 0, 0⟩ :
          PointerEvent).props =
      encodeButton
        (⟨⟨false, false, true, false, false⟩, .middle, 0, 0, 0⟩ :
          PointerEvent).triggeringButton ∧
    PanelPointerReleased ⟨⟨false, false, false, false, false⟩, .right, 0, 0, 0⟩ =
      .pointerUp 0 0 0 0 0 :=
  ⟨(C7_pressed_button_amended
      ⟨⟨false, false, true, false, false⟩, .middle, 0, 0, 0⟩).2.2.mpr
      (Or.inr (Or.inl ⟨rfl, rfl, rfl⟩)),
   (C7_pressed_button_amended
      ⟨⟨false, false, false, false, false⟩, .right, 0, 0, 0⟩).1⟩

/-- Lemma: `EnsureRenderLoop` preserves the render-loop invariant. -/
theorem LoopInv_start (s : RenderLoopState) (h : LoopInv s) :
    LoopInv (EnsureRenderLoop s) := by
  obtain ⟨h1, h2⟩ := h
  cases hA : s.m_renderLoopAttached
  · have hs : EnsureRenderLoop s =
        { m_renderLoopAttached := true, m_renderingToken := s.nextToken,
          activeSubs := s.nextToken :: s.activeSubs, nextToken := s.nextToken + 1 } := by
      simp [EnsureRenderLoop, hA]
    rw [hs]
    unfold LoopInv
    refine ⟨fun _ => ?_, fun hf => ?_⟩
    · simp [h2 hA]
    · simp at hf
  · have hs : EnsureRenderLoop s = s := by simp [EnsureRenderLoop, hA]
    rw [hs]
    exact ⟨h1, h2⟩

/-- Lemma: `StopRenderLoop` preserves the render-loop invariant. -/
theorem LoopInv_stop (s : RenderLoopState) (h : LoopInv s) :
    LoopInv (StopRenderLoop s) := by
  obtain ⟨h1, h2⟩ := h
  cases hA : s.m_renderLoopAttached
  · have hs : StopRenderLoop s = s := by simp [StopRenderLoop, hA]
    rw [hs]
    exact ⟨h1, h2⟩
  · have hs : StopRenderLoop s =
        { s with m_renderLoopAttached := false,
                 activeSubs := s.activeSubs.erase s.m_renderingToken } := by
      simp [StopRenderLoop, hA]
    rw [hs]
    unfold LoopInv
    refine ⟨fun ht => ?_, fun _ => ?_⟩
    · simp at ht
    · simp [h1 hA, List.erase_cons_head]

/-- Any start/stop sequence from an invariant state ends in an
invariant state. -/
theorem LoopInv_run (ops : List LoopOp) (s : RenderLoopState) (h : LoopInv s) :
    LoopInv (runLoopOps s ops) := by
  induction ops generalizing s with
  | nil => exact h
  | cons op rest ih =>
    cases op with
    | start => exact ih (EnsureRenderLoop s) (LoopInv_start s h)
    | stop => exact ih (StopRenderLoop s) (LoopInv_stop s h)

/-- C4: render-loop start/stop are idempotent.  For every start/stop
sequence from the initial state, the Attached flag holds exactly when
the frame clock carries one subscription (the stored token) and is
clear exactly when it carries none; in particular two starts leave
exactly one active subscription and start-stop-stop leaves zero. -/
theorem C4_render_loop_idempotent (ops : List LoopOp) :
    ((runLoopOps initRenderLoop ops).m_renderLoopAttached = true →
      (runLoopOps initRenderLoop ops).activeSubs =
        [(runLoopOps initRenderLoop ops).m_renderingToken]) ∧
    ((runLoopOps initRenderLoop ops).m_renderLoopAttached = false →
      (runLoopOps initRenderLoop ops).activeSubs = []) ∧
    (runLoopOps initRenderLoop [.start, .start]).activeSubs.length = 1 ∧
    (runLoopOps initRenderLoop [.start, .stop, .stop]).activeSubs = [] := by
  have h := LoopInv_run ops initRenderLoop (by constructor <;> simp [initRenderLoop])
  exact ⟨h.1, h.2, by decide, by decide⟩

/-- Witness for C4: after start-start the loop is attached with exactly
the stored token subscribed; after start-stop-stop it is detached with
no subscription. -/
theorem C4_witness :
    (runLoopOps initRenderLoop [.start, .start]).m_renderLoopAttached = true ∧
    (runLoopOps initRenderLoop [.start, .start]).activeSubs =
      [(runLoopOps initRenderLoop [.start, .start]).m_renderingToken] ∧
    (runLoopOps initRenderLoop [.start, .stop, .stop]).m_renderLoopAttached = false ∧
    (runLoopOps initRenderLoop [.start, .stop, .stop]).activeSubs = [] :=
  ⟨by decide, (C4_render_loop_idempotent [.start, .start]).1 (by decide), by decide,
    (C4_render_loop_idempotent [.start, .stop, .stop]).2.1 (by decide)⟩

/-- Inversion for the try-block of `DoFetch`: it produces body bytes
exactly when the Uri parses, the GET completes with a success status
carrying that body, and the body read succeeds. -/
theorem fetchSteps_ok_inv (env : FetchEnv) (body : List Nat)
    (h : fetchSteps env = .ok body) :
    env.uriError = none ∧ env.readBodyError = none ∧
    ∃ code, env.getResult = .ok (code, body) ∧ httpSuccess code = true := by
  obtain ⟨u, g, r⟩ := env
  cases u with
  | some m => simp [fetchSteps] at h
  | none =>
    cases g with
    | error m => simp [fetchSteps] at h
    | ok pr =>
      obtain ⟨code, b⟩ := pr
      by_cases hc : httpSuccess code = true
      · cases r with
        | some m => simp [fetchSteps, hc] at h
        | none =>
          simp [fetchSteps, hc] at h
          subst h
          exact ⟨rfl, rfl, code, rfl, hc⟩
      · simp [fetchSteps, hc] at h

/-- C3: every fetch delivers exactly one `FetchResult` when the host is
live at completion time and none when it is not; `requestId`/`docId`
are echoed unmodified; the success result carries the full response
body and an empty error message and arises exactly from a parsed Uri,
a success-status response and a successful body read; every other
outcome yields a failure result with empty bytes whose error message is
the caught diagnostic. -/
theorem C3_fetch_delivers_exactly_once (env : FetchEnv) (rid did : Nat) :
    DoFetch env false rid did = [] ∧
    ∃ r : FetchResult, DoFetch env true rid did = [r] ∧
      r.requestId = rid ∧ r.docId = did ∧
      ((r.success = true ∧ r.errorMessage = "" ∧ env.uriError = none ∧
          env.readBodyError = none ∧
          ∃ code, env.getResult = .ok (code, r.bytes) ∧ httpSuccess code = true) ∨
       (r.success = false ∧ r.bytes = [] ∧
          fetchSteps env = .error r.errorMessage)) := by
  unfold DoFetch
  cases h : fetchSteps env with
  | ok body =>
    obtain ⟨hu, hr, code, hg, hc⟩ := fetchSteps_ok_inv env body h
    exact ⟨rfl, ⟨rid, did, true, body, ""⟩, rfl, rfl, rfl,
      Or.inl ⟨rfl, rfl, hu, hr, code, hg, hc⟩⟩
  | error m =>
    exact ⟨rfl, ⟨rid, did, false, [], m⟩, rfl, rfl, rfl, Or.inr ⟨rfl, rfl, rfl⟩⟩

/-- The initial bridge state satisfies the subscription invariant. -/
theorem initViewSub_inv : ViewInv initViewSub :=
  ⟨le_refl 1, rfl, rfl, rfl, rfl, rfl, rfl, rfl⟩

/-- One template application preserves the subscription invariant,
leaves the panel reference equal to the template-lookup result, and
performs all unsubscriptions before any subscription. -/
theorem OnApplyTemplate_inv (s : ViewSubState) (lookup : Option Nat)
    (h : ViewInv s) :
    ViewInv (OnApplyTemplate s lookup).1 ∧
    (OnApplyTemplate s lookup).1.m_panel = lookup ∧
    unsubsFirst (OnApplyTemplate s lookup).2 = true := by
  obtain ⟨pan, t1, t2, t3, t4, t5, t6, subs, nt⟩ := s
  obtain ⟨hnt, hrest⟩ := h
  dsimp only at hnt
  cases pan with
  | none =>
    obtain ⟨hsubs, e1, e2, e3, e4, e5, e6⟩ := hrest
    subst hsubs; subst e1; subst e2; subst e3; subst e4; subst e5; subst e6
    cases lookup with
    | none => exact ⟨⟨hnt, rfl, rfl, rfl, rfl, rfl, rfl, rfl⟩, rfl, rfl⟩
    | some q =>
      refine ⟨?_, rfl, rfl⟩
      simp [ViewInv, OnApplyTemplate, canonSubs]
      omega
  | some p =>
    obtain ⟨h1, h2, h3, h4, h5, h6, hsubs⟩ := hrest
    dsimp only at h1 h2 h3 h4 h5 h6
    rw [canonSubs] at hsubs
    dsimp only at hsubs
    subst hsubs
    cases lookup with
    | none =>
      refine ⟨?_, ?_, ?_⟩ <;>
        simp [OnApplyTemplate, clearToken, canonSubs, ViewInv, unsubsFirst,
          SubAction.isUnsub, h1, h2, h3, h4, h5, h6, hnt, List.erase_cons_head]
    | some q =>
      refine ⟨?_, ?_, ?_⟩ <;>
        simp [OnApplyTemplate, clearToken, canonSubs, ViewInv, unsubsFirst,
          SubAction.isUnsub, h1, h2, h3, h4, h5, h6, List.erase_cons_head] <;>
        omega

/-- Any sequence of template applications from an invariant state ends
in an invariant state. -/
theorem ViewInv_run (ls : List (Option Nat)) (s : ViewSubState) (h : ViewInv s) :
    ViewInv (runApplies s ls) := by
  induction ls generalizing s with
  | nil => exact h
  | cons l rest ih => exact ih _ (OnApplyTemplate_inv s l h).1

/-- Under the subscription invariant, every event kind has at most one
live subscription. -/
theorem ViewInv_countEv (s : ViewSubState) (h : ViewInv s) (ev : PanelEvent) :
    countEv s.uiSubs ev ≤ 1 := by
  obtain ⟨pan, t1, t2, t3, t4, t5, t6, subs, nt⟩ := s
  obtain ⟨-, hrest⟩ := h
  cases pan with
  | none => rw [hrest.1]; simp [countEv]
  | some p =>
    rw [hrest.2.2.2.2.2.2]
    cases ev <;> simp [countEv, canonSubs]

/-- Under the subscription invariant, every live subscription is on the
currently held panel. -/
theorem ViewInv_mem_panel (s : ViewSubState) (h : ViewInv s) (q : Nat)
    (ev : PanelEvent) (t : Nat) (hm : (q, ev, t) ∈ s.uiSubs) :
    s.m_panel = some q := by
  obtain ⟨pan, t1, t2, t3, t4, t5, t6, subs, nt⟩ := s
  obtain ⟨-, hrest⟩ := h
  cases pan with
  | none =>
    rw [hrest.1] at hm
    simp at hm
  | some p =>
    rw [hrest.2.2.2.2.2.2] at hm
    simp only [canonSubs, List.mem_cons, List.mem_singleton, Prod.mk.injEq,
      List.not_mem_nil, or_false] at hm
    rcases hm with ⟨hq, -⟩ | ⟨hq, -⟩ | ⟨hq, -⟩ | ⟨hq, -⟩ | ⟨hq, -⟩ | ⟨hq, -⟩ <;>
      rw [hq]

/-- C8: for every sequence of template applications on one bridge
instance, each of the six panel events has at most one live
subscription before and after a further application; within one
application all unsubscriptions happen before any subscription to the
new panel; after the application every remaining subscription is on
the newly looked-up panel; and applying on a bridge with zero
subscriptions performs no removal (a valid no-op). -/
theorem C8_template_reapply_unsubscribes (ls : List (Option Nat))
    (lookup : Option Nat) :
    (∀ ev, countEv (runApplies initViewSub ls).uiSubs ev ≤ 1) ∧
    unsubsFirst (OnApplyTemplate (runApplies initViewSub ls) lookup).2 = true ∧
    (∀ ev, countEv (OnApplyTemplate (runApplies initViewSub ls) lookup).1.uiSubs ev ≤ 1) ∧
    (∀ q ev t,
      (q, ev, t) ∈ (OnApplyTemplate (runApplies initViewSub ls) lookup).1.uiSubs →
        lookup = some q) ∧
    (OnApplyTemplate initViewSub lookup).2.all (fun a => !a.isUnsub) = true := by
  have hinv := ViewInv_run ls initViewSub initViewSub_inv
  obtain ⟨hpost, hpanel, htrace⟩ := OnApplyTemplate_inv _ lookup hinv
  refine ⟨fun ev => ViewInv_countEv _ hinv ev, htrace,
    fun ev => ViewInv_countEv _ hpost ev, fun q ev t hm => ?_, ?_⟩
  · rw [← hpanel]
    exact ViewInv_mem_panel _ hpost q ev t hm
  · cases lookup <;> rfl

/-- Witness for C8: after one application that finds panel 1, the
Loaded subscription with token 1 is live, and it is on panel 1. -/
theorem C8_witness :
    (1, PanelEvent.loaded, 1) ∈
      (OnApplyTemplate (runApplies initViewSub []) (some 1)).1.uiSubs ∧
    (some 1 : Option Nat) = some 1 :=
  ⟨by decide,
    (C8_template_reapply_unsubscribes [] (some 1)).2.2.2.1 1 .loaded 1 (by decide)⟩

end Blitz
